import Mathlib

/-!
Shallow embedding of `src/gamepad-manager.js` (class `GamepadManager`).

Numbers that JavaScript stores as doubles (axis values, button analog
values, timestamps, thresholds) are modelled as rationals `ℚ`; all the
comparisons the claims exercise (`|v| > 0.15`, `|Δ| > 0.02`) agree with
the double-precision comparisons at the claim-relevant inputs.
JavaScript `Map` objects (`this.gamepads`, `this.buttonStates`,
`this.axisStates`) are modelled as insertion-ordered association lists:
`set` of a fresh key appends, `set` of a present key overwrites in place,
`delete` keeps the order of the remaining entries — exactly the JS `Map`
iteration-order contract.  `null`-able fields become `Option`.
JavaScript truthiness checks on numbers (`!this.activeGamepad`,
`if (this.rafId)`) are modelled by explicit "is the number nonzero"
tests, since `0` is falsy in JavaScript.
-/

namespace GamepadManager

/-- One entry of the `gamepad.buttons` array: `{pressed, value}`. -/
structure Button where
  pressed : Bool
  value : ℚ
  deriving Repr, DecidableEq

/-- A host `Gamepad` object as read from the browser: identity, buttons,
axes, timestamp, connectivity and the optional `vibrationActuator`
(carrying its `type` string when present). -/
structure Gamepad where
  index : Nat
  id : String
  buttons : List Button
  axes : List ℚ
  timestamp : ℚ
  connected : Bool
  vibrationActuator : Option String
  deriving Repr, DecidableEq

/-- Stored per-button tracking state `{pressed, value}`. -/
structure ButtonState where
  pressed : Bool
  value : ℚ
  deriving Repr, DecidableEq

/-- Insertion-ordered map (JS `Map`) as an association list; the
manager only ever builds these through `mapSet`/`mapDelete`, so keys
stay unique as in a real `Map`. -/
abbrev JSMap (α : Type) := List (Nat × α)

/-- JS `Map.prototype.set`: overwrite in place if the key is present
(a JS `Map` keeps the original insertion position on overwrite), append
otherwise. -/
def mapSet {α : Type} : JSMap α → Nat → α → JSMap α
  | [], k, v => [(k, v)]
  | p :: rest, k, v =>
    if p.1 = k then (k, v) :: rest else p :: mapSet rest k v

/-- JS `Map.prototype.delete`: remove the entry with the key, keeping
the other entries in order. -/
def mapDelete {α : Type} : JSMap α → Nat → JSMap α
  | [], _ => []
  | p :: rest, k =>
    if p.1 = k then mapDelete rest k else p :: mapDelete rest k

/-- JS `Map.prototype.has`. -/
def mapHas {α : Type} : JSMap α → Nat → Bool
  | [], _ => false
  | p :: rest, k => p.1 = k || mapHas rest k

/-- JS `Map.prototype.get` (`undefined` becomes `none`). -/
def mapGet {α : Type} : JSMap α → Nat → Option α
  | [], _ => none
  | p :: rest, k => if p.1 = k then some p.2 else mapGet rest k

/-- Spreading `[...m.keys()]` in iteration (insertion) order. -/
def mapKeys {α : Type} (m : JSMap α) : List Nat :=
  m.map (fun p => p.1)

/-- The mutable fields of the `GamepadManager` instance. -/
structure ManagerState where
  gamepads : JSMap Gamepad
  activeGamepad : Option Nat
  isRunning : Bool
  rafId : Option Nat
  buttonStates : JSMap (List ButtonState)
  axisStates : JSMap (List ℚ)
  nextRaf : Nat
  deriving Repr, DecidableEq

/-- The constructor's field initialisation (before `init()` runs). -/
def initialState : ManagerState :=
  { gamepads := []
    activeGamepad := none
    isRunning := false
    rafId := none
    buttonStates := []
    axisStates := []
    nextRaf := 1 }

/-- Constant `this.STICK_DEAD_ZONE = 0.15`. -/
def STICK_DEAD_ZONE : ℚ := 15 / 100

/-- Constant `this.TRIGGER_DEAD_ZONE = 0.05` (declared in the constructor; never
read by `processGamepadInput`). -/
def TRIGGER_DEAD_ZONE : ℚ := 5 / 100

/-- JS truthiness of `this.activeGamepad`: `null` and the number `0` are
falsy, any other index is truthy. -/
def truthyActive : Option Nat → Bool
  | none => false
  | some i => decide (i ≠ 0)

/-- Method `initializeButtonStates`: a fresh array with
`{pressed:false, value:0}` for every reported button. -/
def initializeButtonStates (gp : Gamepad) : List ButtonState :=
  List.replicate gp.buttons.length { pressed := false, value := 0 }

/-- Method `initializeAxisStates`: a fresh array with `0` for every reported
axis. -/
def initializeAxisStates (gp : Gamepad) : List ℚ :=
  List.replicate gp.axes.length 0

/-- Method `handleGamepadConnected` (state effect; the `onConnect` callback does
not mutate the manager): register the gamepad under its index, claim the
active slot when `!this.activeGamepad`, reset button/axis tracking. -/
def handleGamepadConnected (s : ManagerState) (gp : Gamepad) : ManagerState :=
  let s1 := { s with gamepads := mapSet s.gamepads gp.index gp }
  let s2 :=
    if truthyActive s1.activeGamepad then s1
    else { s1 with activeGamepad := some gp.index }
  { s2 with
      buttonStates := mapSet s2.buttonStates gp.index (initializeButtonStates gp)
      axisStates := mapSet s2.axisStates gp.index (initializeAxisStates gp) }

/-- Method `handleGamepadDisconnected` (state effect): drop the device and its
tracking state; if it was the active one (`===` comparison, no
truthiness here), re-elect the first remaining key in iteration order,
or `null`. -/
def handleGamepadDisconnected (s : ManagerState) (index : Nat) : ManagerState :=
  let gamepads := mapDelete s.gamepads index
  let buttonStates := mapDelete s.buttonStates index
  let axisStates := mapDelete s.axisStates index
  let active :=
    if s.activeGamepad = some index then
      match mapKeys gamepads with
      | [] => none
      | k :: _ => some k
    else s.activeGamepad
  { s with
      gamepads := gamepads
      buttonStates := buttonStates
      axisStates := axisStates
      activeGamepad := active }

/-- Method `isConnected()`: `this.activeGamepad !== null && this.gamepads.size > 0`. -/
def isConnected (s : ManagerState) : Bool :=
  s.activeGamepad.isSome && decide (0 < s.gamepads.length)

/-- Method `getGamepadCount()`. -/
def getGamepadCount (s : ManagerState) : Nat :=
  s.gamepads.length

/-- Method `getButtonName`: the fixed standard-mapping table with the
generated fallback label. -/
def getButtonName (gamepadIndex buttonIndex : Nat) : String :=
  match buttonIndex with
  | 0 => "A"
  | 1 => "B"
  | 2 => "X"
  | 3 => "Y"
  | 4 => "LB"
  | 5 => "RB"
  | 6 => "LT"
  | 7 => "RT"
  | 8 => "Back"
  | 9 => "Start"
  | 10 => "LS"
  | 11 => "RS"
  | 12 => "Guide"
  | 13 => "Share"
  | 14 => "Touchpad"
  | n => "Btn " ++ toString n

/-- Method `getAxisName`: the fixed standard-mapping table with the generated
fallback label. -/
def getAxisName (gamepadIndex axisIndex : Nat) : String :=
  match axisIndex with
  | 0 => "LS-X"
  | 1 => "LS-Y"
  | 2 => "RS-X"
  | 3 => "RS-Y"
  | 4 => "LT"
  | 5 => "RT"
  | n => "Axis " ++ toString n

/-- Payload of the `onButtonPress` callback. -/
structure ButtonPressEvent where
  index : Nat
  button : String
  value : ℚ
  timestamp : ℚ
  deriving Repr, DecidableEq

/-- Payload of the `onButtonRelease` callback. -/
structure ButtonReleaseEvent where
  index : Nat
  button : String
  timestamp : ℚ
  deriving Repr, DecidableEq

/-- Payload of the `onAxisChange` callback. -/
structure AxisChangeEvent where
  index : Nat
  value : ℚ
  rawValue : ℚ
  name : String
  timestamp : ℚ
  deriving Repr, DecidableEq

/-- The dead-zone adjustment applied inside the axis loop:
`Math.abs(value) > this.STICK_DEAD_ZONE ? value : 0`. -/
def applyDeadZone (v : ℚ) : ℚ :=
  if |v| > STICK_DEAD_ZONE then v else 0

/-- The axis-change emission threshold in
`Math.abs(adjustedValue - adjustedPrevValue) > 0.02`. -/
def AXIS_CHANGE_THRESHOLD : ℚ := 2 / 100

/-- The button loop of `processGamepadInput`, press-event side:
walking `gamepad.buttons` with running index `i`, a press event is
pushed when `isPressed && !prevState.pressed`, where `prevState` is
`prevButtonStates[i] || {pressed:false, value:0}`. -/
def detectPressEvents (gpIndex : Nat) (prev : List ButtonState) (ts : ℚ) :
    Nat → List Button → List ButtonPressEvent
  | _, [] => []
  | i, b :: rest =>
    (if b.pressed && !((prev.getD i { pressed := false, value := 0 }).pressed) then
      [{ index := i, button := getButtonName gpIndex i, value := b.value, timestamp := ts }]
    else []) ++ detectPressEvents gpIndex prev ts (i + 1) rest

/-- The button loop of `processGamepadInput`, release-event side:
a release event is pushed when `!isPressed && prevState.pressed`. -/
def detectReleaseEvents (gpIndex : Nat) (prev : List ButtonState) (ts : ℚ) :
    Nat → List Button → List ButtonReleaseEvent
  | _, [] => []
  | i, b :: rest =>
    (if !b.pressed && (prev.getD i { pressed := false, value := 0 }).pressed then
      [{ index := i, button := getButtonName gpIndex i, timestamp := ts }]
    else []) ++ detectReleaseEvents gpIndex prev ts (i + 1) rest

/-- The button loop's state write-back: for every `i` below
`gamepad.buttons.length` the stored entry becomes the current
`{pressed, value}` unconditionally; entries of the old array beyond the
button count are left in place. -/
def updateButtonStates (prev : List ButtonState) (buttons : List Button) :
    List ButtonState :=
  buttons.map (fun b => { pressed := b.pressed, value := b.value })
    ++ prev.drop buttons.length

/-- The axis loop of `processGamepadInput`: walking `gamepad.axes` with
running index `i`, with `prevValue = prevAxisStates[i] || 0`, both
values are dead-zone adjusted and an axis-change event is pushed when
the adjusted difference exceeds `0.02`. -/
def detectAxisEvents (gpIndex : Nat) (prev : List ℚ) (ts : ℚ) :
    Nat → List ℚ → List AxisChangeEvent
  | _, [] => []
  | i, v :: rest =>
    (if |applyDeadZone v - applyDeadZone (prev.getD i 0)| > AXIS_CHANGE_THRESHOLD then
      [{ index := i, value := applyDeadZone v, rawValue := v,
         name := getAxisName gpIndex i, timestamp := ts }]
    else []) ++ detectAxisEvents gpIndex prev ts (i + 1) rest

/-- The axis loop's state write-back: `prevAxisStates[i] = value` stores
the raw value for every `i` below `gamepad.axes.length`; entries of the
old array beyond the axis count are left in place. -/
def updateAxisStates (prev : List ℚ) (axes : List ℚ) : List ℚ :=
  axes ++ prev.drop axes.length

/-- The callback emissions of one `processGamepadInput` call. -/
structure PollEvents where
  presses : List ButtonPressEvent
  releases : List ButtonReleaseEvent
  axisChanges : List AxisChangeEvent
  deriving Repr, DecidableEq

/-- Method `processGamepadInput(index, gamepad)`: diff the fresh frame against
the stored tracking state (absent entries default to `[]`), emit the
press/release/axis-change events, and write the current frame back. -/
def processGamepadInput (s : ManagerState) (index : Nat) (gp : Gamepad) :
    ManagerState × PollEvents :=
  let prevB := (mapGet s.buttonStates index).getD []
  let prevA := (mapGet s.axisStates index).getD []
  ({ s with
      buttonStates := mapSet s.buttonStates index (updateButtonStates prevB gp.buttons)
      axisStates := mapSet s.axisStates index (updateAxisStates prevA gp.axes) },
   { presses := detectPressEvents index prevB gp.timestamp 0 gp.buttons
     releases := detectReleaseEvents index prevB gp.timestamp 0 gp.buttons
     axisChanges := detectAxisEvents index prevA gp.timestamp 0 gp.axes })

/-- One slot iteration of the `poll` loop body: empty slots are
skipped; a live gamepad in a slot the registry has not seen triggers
the synthesized connect, then its input is processed under the slot
index. -/
def pollSlotStep (acc : ManagerState × List PollEvents)
    (i : Nat) (slot : Option Gamepad) : ManagerState × List PollEvents :=
  match slot with
  | none => acc
  | some gp =>
    let s0 := acc.1
    let s1 := if mapHas s0.gamepads i then s0 else handleGamepadConnected s0 gp
    let r := processGamepadInput s1 i gp
    (r.1, acc.2 ++ [r.2])

/-- Folding the loop body over the enumerated `navigator.getGamepads()`
slot array. -/
def pollSlots (s : ManagerState) : Nat → List (Option Gamepad) →
    ManagerState × List PollEvents
  | _, [] => (s, [])
  | i, slot :: rest =>
    let acc := pollSlotStep (s, []) i slot
    let r := pollSlots acc.1 (i + 1) rest
    (r.1, acc.2 ++ r.2)

/-- Method `poll()`, one pass: bail out when not running (without
rescheduling); otherwise process every slot and request the next
animation frame, storing its (fresh, nonzero) handle in `rafId`. -/
def poll (s : ManagerState) (slots : List (Option Gamepad)) :
    ManagerState × List PollEvents :=
  if s.isRunning then
    let r := pollSlots s 0 slots
    ({ r.1 with rafId := some r.1.nextRaf, nextRaf := r.1.nextRaf + 1 }, r.2)
  else (s, [])

/-- Method `start()`: a no-op while already running; otherwise set running and
run a first `poll` pass synchronously (over the slots visible at that
moment). -/
def start (s : ManagerState) (slots : List (Option Gamepad)) : ManagerState :=
  if s.isRunning then s
  else (poll { s with isRunning := true } slots).1

/-- Method `stop()`: clear the running flag and, when a next-frame request is
pending (`if (this.rafId)` — truthiness, so a `0` handle would be
skipped), cancel it and null the handle. -/
def stop (s : ManagerState) : ManagerState :=
  let s1 := { s with isRunning := false }
  match s1.rafId with
  | some n => if n ≠ 0 then { s1 with rafId := none } else s1
  | none => s1

/-- Method `getActiveGamepad()`: `null` when `!this.activeGamepad` (truthiness:
also when the active index is `0`), otherwise the slot of
`navigator.getGamepads()` at the active index. -/
def getActiveGamepad (s : ManagerState) (slots : List (Option Gamepad)) :
    Option Gamepad :=
  if truthyActive s.activeGamepad then
    match s.activeGamepad with
    | some idx => slots.getD idx none
    | none => none
  else none

/-- The `(strongMagnitude, weakMagnitude, duration)` triples of the
vibration pattern table. -/
structure VibrationPattern where
  strongMagnitude : ℚ
  weakMagnitude : ℚ
  duration : ℚ
  deriving Repr, DecidableEq

/-- Lookup `patterns[pattern] || patterns.medium`. -/
def choosePattern (pattern : String) : VibrationPattern :=
  if pattern = "light" then
    { strongMagnitude := 3 / 10, weakMagnitude := 2 / 10, duration := 100 }
  else if pattern = "medium" then
    { strongMagnitude := 6 / 10, weakMagnitude := 4 / 10, duration := 200 }
  else if pattern = "strong" then
    { strongMagnitude := 1, weakMagnitude := 8 / 10, duration := 300 }
  else
    { strongMagnitude := 6 / 10, weakMagnitude := 4 / 10, duration := 200 }

/-- The host's `vibrationActuator.playEffect` promise: settles either
fulfilled or rejected, as chosen by the environment oracle `rejects`. -/
def playEffect (rejects : Bool) : Except String Unit :=
  if rejects then Except.error "Vibration error" else Except.ok ()

/-- Method `testVibration(pattern)`: `false` when `!this.activeGamepad`
(truthiness — also for index `0`), when the slot is empty, or when the
gamepad has no `vibrationActuator`; otherwise awaits `playEffect` inside
`try`/`catch`, returning `true` on fulfilment and `false` on rejection.
An `Except.error` result would model an exception escaping to the
caller; the `catch` arm is the `.error` match case. -/
def testVibration (s : ManagerState) (slots : List (Option Gamepad))
    (rejects : Bool) (pattern : String) : Except String Bool :=
  if truthyActive s.activeGamepad then
    match s.activeGamepad with
    | some idx =>
      match slots.getD idx none with
      | none => Except.ok false
      | some gp =>
        match gp.vibrationActuator with
        | none => Except.ok false
        | some _ =>
          let _p := choosePattern pattern
          match playEffect rejects with
          | Except.ok _ => Except.ok true
          | Except.error _ => Except.ok false
    | none => Except.ok false
  else Except.ok false

/-! ### Basic lemmas about the JS `Map` model -/

theorem mapHas_mapSet_self {α : Type} (m : JSMap α) (k : Nat) (v : α) :
    mapHas (mapSet m k v) k = true := by
  induction m with
  | nil => simp [mapSet, mapHas]
  | cons p rest ih =>
    by_cases hp : p.1 = k <;> simp [mapSet, mapHas, hp, ih]

theorem mapGet_mapSet_self {α : Type} (m : JSMap α) (k : Nat) (v : α) :
    mapGet (mapSet m k v) k = some v := by
  induction m with
  | nil => simp [mapSet, mapGet]
  | cons p rest ih =>
    by_cases hp : p.1 = k <;> simp [mapSet, mapGet, hp, ih]

theorem mapHas_mapSet_of {α : Type} {m : JSMap α} {j : Nat} (k : Nat) (v : α)
    (h : mapHas m j = true) : mapHas (mapSet m k v) j = true := by
  induction m with
  | nil => simp [mapHas] at h
  | cons p rest ih =>
    by_cases hp : p.1 = k
    · simp only [mapHas, Bool.or_eq_true, decide_eq_true_eq] at h
      rcases h with h | h
      · simp [mapSet, mapHas, hp, hp ▸ h]
      · simp [mapSet, mapHas, hp, h]
    · simp only [mapHas, Bool.or_eq_true, decide_eq_true_eq] at h
      rcases h with h | h
      · have hjk : ¬j = k := fun e => hp (h.trans e)
        simp [mapSet, mapHas, hp, h, hjk]
      · simp [mapSet, mapHas, hp, ih h]

theorem mapHas_mapDelete_self {α : Type} (m : JSMap α) (k : Nat) :
    mapHas (mapDelete m k) k = false := by
  induction m with
  | nil => simp [mapDelete, mapHas]
  | cons p rest ih =>
    by_cases hp : p.1 = k <;> simp [mapDelete, mapHas, hp, ih]

theorem mapHas_mapDelete_of {α : Type} {m : JSMap α} {j k : Nat}
    (h : mapHas m j = true) (hjk : j ≠ k) : mapHas (mapDelete m k) j = true := by
  induction m with
  | nil => simp [mapHas] at h
  | cons p rest ih =>
    simp only [mapHas, Bool.or_eq_true, decide_eq_true_eq] at h
    by_cases hp : p.1 = k
    · rcases h with h | h
      · exact absurd (h ▸ hp) hjk
      · simp [mapDelete, hp, ih h]
    · rcases h with h | h
      · simp [mapDelete, mapHas, hp, h, hjk]
      · simp [mapDelete, mapHas, hp, ih h]

theorem mapHas_of_mapKeys_head {α : Type} {m : JSMap α} {j : Nat} {rest : List Nat}
    (h : mapKeys m = j :: rest) : mapHas m j = true := by
  cases m with
  | nil => simp [mapKeys] at h
  | cons p rest2 =>
    simp only [mapKeys, List.map_cons, List.cons.injEq] at h
    simp [mapHas, h.1]

/-! ### Projection lemmas for the manager operations -/

theorem handleGamepadConnected_gamepads (s : ManagerState) (gp : Gamepad) :
    (handleGamepadConnected s gp).gamepads = mapSet s.gamepads gp.index gp := by
  by_cases h : truthyActive s.activeGamepad <;> simp [handleGamepadConnected, h]

theorem handleGamepadConnected_activeGamepad (s : ManagerState) (gp : Gamepad) :
    (handleGamepadConnected s gp).activeGamepad =
      if truthyActive s.activeGamepad then s.activeGamepad else some gp.index := by
  by_cases h : truthyActive s.activeGamepad <;> simp [handleGamepadConnected, h]

theorem handleGamepadConnected_isRunning (s : ManagerState) (gp : Gamepad) :
    (handleGamepadConnected s gp).isRunning = s.isRunning := by
  by_cases h : truthyActive s.activeGamepad <;> simp [handleGamepadConnected, h]

theorem handleGamepadDisconnected_activeGamepad (s : ManagerState) (index : Nat) :
    (handleGamepadDisconnected s index).activeGamepad =
      if s.activeGamepad = some index then
        (mapKeys (mapDelete s.gamepads index)).head?
      else s.activeGamepad := by
  by_cases h : s.activeGamepad = some index
  · cases hk : mapKeys (mapDelete s.gamepads index) <;>
      simp [handleGamepadDisconnected, h, hk]
  · simp [handleGamepadDisconnected, h]

theorem processGamepadInput_gamepads (s : ManagerState) (index : Nat) (gp : Gamepad) :
    (processGamepadInput s index gp).1.gamepads = s.gamepads := rfl

theorem processGamepadInput_activeGamepad (s : ManagerState) (index : Nat) (gp : Gamepad) :
    (processGamepadInput s index gp).1.activeGamepad = s.activeGamepad := rfl

theorem processGamepadInput_isRunning (s : ManagerState) (index : Nat) (gp : Gamepad) :
    (processGamepadInput s index gp).1.isRunning = s.isRunning := rfl

theorem pollSlotStep_isRunning (s : ManagerState) (evs : List PollEvents)
    (i : Nat) (slot : Option Gamepad) :
    (pollSlotStep (s, evs) i slot).1.isRunning = s.isRunning := by
  cases slot with
  | none => rfl
  | some gp =>
    simp only [pollSlotStep]
    by_cases hh : mapHas s.gamepads i = true <;>
      simp [hh, processGamepadInput_isRunning, handleGamepadConnected_isRunning]

theorem pollSlots_isRunning (slots : List (Option Gamepad)) :
    ∀ (s : ManagerState) (i0 : Nat), (pollSlots s i0 slots).1.isRunning = s.isRunning := by
  induction slots with
  | nil => intro s i0; rfl
  | cons slot rest ih =>
    intro s i0
    have h1 : (pollSlots s i0 (slot :: rest)).1
        = (pollSlots (pollSlotStep (s, []) i0 slot).1 (i0 + 1) rest).1 := rfl
    rw [h1, ih, pollSlotStep_isRunning]

theorem poll_isRunning (s : ManagerState) (slots : List (Option Gamepad)) :
    (poll s slots).1.isRunning = s.isRunning := by
  unfold poll
  by_cases h : s.isRunning = true <;> simp [h, pollSlots_isRunning]

theorem start_of_isRunning {s : ManagerState} (h : s.isRunning = true)
    (slots : List (Option Gamepad)) : start s slots = s := by
  unfold start
  rw [if_pos h]

theorem start_isRunning (s : ManagerState) (slots : List (Option Gamepad)) :
    (start s slots).isRunning = true := by
  unfold start
  by_cases h : s.isRunning = true
  · simp [h]
  · simp only [h, if_neg, Bool.false_eq_true, if_false]
    rw [poll_isRunning]

theorem stop_isRunning (s : ManagerState) : (stop s).isRunning = false := by
  unfold stop
  cases h : s.rafId with
  | none => rfl
  | some n => by_cases hn : n ≠ 0 <;> simp [hn]

/-! ### Example devices and states for concrete instantiations -/

/-- An example pad reporting `index = 0`, one button and one axis. -/
def padZero : Gamepad :=
  { index := 0, id := "Example Pad 0"
    buttons := [{ pressed := false, value := 0 }]
    axes := [0], timestamp := 3, connected := true, vibrationActuator := none }

/-- An example pad reporting `index = 1`, with a `dual-rumble` actuator. -/
def padOne : Gamepad :=
  { index := 1, id := "Example Pad 1"
    buttons := [{ pressed := false, value := 0 }]
    axes := [0], timestamp := 4, connected := true
    vibrationActuator := some "dual-rumble" }

/-- An example pad reporting `index = 2`. -/
def padTwo : Gamepad :=
  { index := 2, id := "Example Pad 2"
    buttons := [], axes := [], timestamp := 5, connected := true
    vibrationActuator := none }

/-! ### C10 -/

/-- C10: whenever the active device is the device at index `0`,
`getActiveGamepad()` returns `null`: the active index is read through a
JS truthiness test (`!this.activeGamepad`), and the number `0` is falsy,
so an active index of `0` is treated exactly like the
no-active-device state. -/
theorem C10_getActiveGamepad_index_zero (s : ManagerState)
    (h : s.activeGamepad = some 0) (slots : List (Option Gamepad)) :
    getActiveGamepad s slots = none := by
  simp [getActiveGamepad, h, truthyActive]

/-- Witness for C10: a state whose active device sits at index `0`,
with its gamepad present in slot `0`, still yields `none`. -/
theorem C10_getActiveGamepad_index_zero_witness :
    getActiveGamepad { initialState with activeGamepad := some 0 } [some padZero] = none :=
  C10_getActiveGamepad_index_zero { initialState with activeGamepad := some 0 }
    rfl [some padZero]

/-! ### C2 -/

/-- C2: the dead-zone adjustment maps a raw value `v` to exactly `0`
when `|v| ≤ 0.15` and leaves it unchanged when `|v| > 0.15`; raw `0.10`
adjusts to `0` and raw `0.20` adjusts to `0.20`; and every axis-change
event produced by the axis loop, at every axis index (trigger-style
indices `4`, `5` included), carries as its adjusted value the result of
the one shared `applyDeadZone` with the single `0.15` threshold applied
to its raw value. -/
theorem C2_dead_zone (v : ℚ) :
    (|v| ≤ STICK_DEAD_ZONE → applyDeadZone v = 0) ∧
    (|v| > STICK_DEAD_ZONE → applyDeadZone v = v) ∧
    STICK_DEAD_ZONE = 15 / 100 ∧
    applyDeadZone (10 / 100) = 0 ∧
    applyDeadZone (20 / 100) = 20 / 100 ∧
    (∀ gpIndex prev ts i0 axes, ∀ e ∈ detectAxisEvents gpIndex prev ts i0 axes,
      e.value = applyDeadZone e.rawValue) := by
  refine ⟨?_, ?_, rfl,
    by norm_num [applyDeadZone, STICK_DEAD_ZONE, abs_of_nonneg],
    by norm_num [applyDeadZone, STICK_DEAD_ZONE, abs_of_nonneg], ?_⟩
  · intro h
    simp [applyDeadZone, not_lt.mpr h]
  · intro h
    simp [applyDeadZone, h]
  · intro gpIndex prev ts i0 axes
    induction axes generalizing i0 with
    | nil => intro e he; simp [detectAxisEvents] at he
    | cons a rest ih =>
      intro e he
      simp only [detectAxisEvents, List.mem_append] at he
      rcases he with he | he
      · by_cases hc : |applyDeadZone a - applyDeadZone (prev.getD i0 0)|
            > AXIS_CHANGE_THRESHOLD
        · rw [if_pos hc, List.mem_singleton] at he
          subst he
          rfl
        · rw [if_neg hc] at he
          cases he
      · exact ih (i0 + 1) e he

/-- Witness for C2 at raw values `0.10` (inside the dead zone) and
`0.30` (outside). -/
theorem C2_dead_zone_witness :
    applyDeadZone (1 / 10) = 0 ∧ applyDeadZone (3 / 10) = 3 / 10 :=
  ⟨(C2_dead_zone (1 / 10)).1 (by norm_num [STICK_DEAD_ZONE, abs_of_nonneg]),
   (C2_dead_zone (3 / 10)).2.1 (by norm_num [STICK_DEAD_ZONE, abs_of_nonneg])⟩

/-! ### C8 -/

/-- Unfolding equation for `testVibration` when the active index is a
truthy (nonzero) `idx`. -/
theorem testVibration_eq_of_truthy {s : ManagerState} {slots : List (Option Gamepad)}
    {rejects : Bool} {pattern : String} {idx : Nat}
    (hact : s.activeGamepad = some idx) (ht : truthyActive (some idx) = true) :
    testVibration s slots rejects pattern =
      (match slots.getD idx none with
       | none => Except.ok false
       | some gp =>
         match gp.vibrationActuator with
         | none => Except.ok false
         | some _ =>
           match playEffect rejects with
           | Except.ok _ => Except.ok true
           | Except.error _ => Except.ok false) := by
  unfold testVibration
  rw [hact, if_pos ht]

/-- Unfolding equation for `testVibration` when additionally the active
slot holds a gamepad. -/
theorem testVibration_eq_of_slot {s : ManagerState} {slots : List (Option Gamepad)}
    {rejects : Bool} {pattern : String} {idx : Nat} {gp : Gamepad}
    (hact : s.activeGamepad = some idx) (ht : truthyActive (some idx) = true)
    (hslot : slots.getD idx none = some gp) :
    testVibration s slots rejects pattern =
      (match gp.vibrationActuator with
       | none => Except.ok false
       | some _ =>
         match playEffect rejects with
         | Except.ok _ => Except.ok true
         | Except.error _ => Except.ok false) := by
  rw [testVibration_eq_of_truthy hact ht, hslot]

/-- C8: `testVibration` never lets a rejection escape to the caller
(its result is always a fulfilled `ok` value, never an `error`), and it
resolves to `false` when no device is active, when the active slot
holds no gamepad, when the active gamepad lacks a `vibrationActuator`,
and when the platform `playEffect` call rejects. -/
theorem C8_testVibration_graceful (s : ManagerState)
    (slots : List (Option Gamepad)) (rejects : Bool) (pattern : String) :
    (∃ b, testVibration s slots rejects pattern = Except.ok b) ∧
    (s.activeGamepad = none →
      testVibration s slots rejects pattern = Except.ok false) ∧
    (∀ idx, s.activeGamepad = some idx → slots.getD idx none = none →
      testVibration s slots rejects pattern = Except.ok false) ∧
    (∀ idx gp, s.activeGamepad = some idx → slots.getD idx none = some gp →
      gp.vibrationActuator = none →
      testVibration s slots rejects pattern = Except.ok false) ∧
    (rejects = true →
      testVibration s slots rejects pattern = Except.ok false) := by
  refine ⟨?_, ?_, ?_, ?_, ?_⟩
  · by_cases ht : truthyActive s.activeGamepad = true
    · cases hact : s.activeGamepad with
      | none => rw [hact] at ht; exact absurd ht (by simp [truthyActive])
      | some idx =>
        cases hslot : slots.getD idx none with
        | none =>
          exact ⟨false, by rw [testVibration_eq_of_truthy hact (hact ▸ ht), hslot]⟩
        | some gp =>
          cases hvib : gp.vibrationActuator with
          | none =>
            exact ⟨false, by
              rw [testVibration_eq_of_slot hact (hact ▸ ht) hslot, hvib]⟩
          | some kind =>
            cases rejects with
            | false =>
              exact ⟨true, by
                rw [testVibration_eq_of_slot hact (hact ▸ ht) hslot, hvib]
                rfl⟩
            | true =>
              exact ⟨false, by
                rw [testVibration_eq_of_slot hact (hact ▸ ht) hslot, hvib]
                rfl⟩
    · unfold testVibration
      rw [if_neg ht]
      exact ⟨false, rfl⟩
  · intro h
    unfold testVibration
    rw [h]
    rfl
  · intro idx hact hslot
    by_cases ht : truthyActive (some idx) = true
    · rw [testVibration_eq_of_truthy hact ht, hslot]
    · unfold testVibration
      rw [hact, if_neg ht]
  · intro idx gp hact hslot hvib
    by_cases ht : truthyActive (some idx) = true
    · rw [testVibration_eq_of_slot hact ht hslot, hvib]
    · unfold testVibration
      rw [hact, if_neg ht]
  · intro hr
    subst hr
    by_cases ht : truthyActive s.activeGamepad = true
    · cases hact : s.activeGamepad with
      | none => rw [hact] at ht; exact absurd ht (by simp [truthyActive])
      | some idx =>
        cases hslot : slots.getD idx none with
        | none => rw [testVibration_eq_of_truthy hact (hact ▸ ht), hslot]
        | some gp =>
          cases hvib : gp.vibrationActuator with
          | none => rw [testVibration_eq_of_slot hact (hact ▸ ht) hslot, hvib]
          | some kind =>
            rw [testVibration_eq_of_slot hact (hact ▸ ht) hslot, hvib]
            rfl
    · unfold testVibration
      rw [if_neg ht]

/-- Witness for C8: a capability-less active device (index `2`, no
actuator) resolves to `false`. -/
theorem C8_testVibration_graceful_witness :
    testVibration { initialState with activeGamepad := some 2 }
      [none, none, some padTwo] false "medium" = Except.ok false :=
  (C8_testVibration_graceful { initialState with activeGamepad := some 2 }
      [none, none, some padTwo] false "medium").2.2.2.1 2 padTwo rfl rfl rfl

/-! ### C9 -/

/-- C9: `start()` is idempotent while the loop runs: in the running
state it returns the state unchanged (so no second sampling loop is
created, and chaining two `start` calls equals one), and a single
`stop()` clears the running flag, after which a pending `poll` callback
does nothing at all — it neither mutates state, emits events, nor
reschedules. -/
theorem C9_start_idempotent (s : ManagerState) (h : s.isRunning = true)
    (slots slots2 : List (Option Gamepad)) :
    start s slots = s ∧
    (∀ t : ManagerState, start (start t slots) slots2 = start t slots) ∧
    (stop s).isRunning = false ∧
    poll (stop s) slots2 = (stop s, []) := by
  refine ⟨start_of_isRunning h slots, ?_, stop_isRunning s, ?_⟩
  · intro t
    exact start_of_isRunning (start_isRunning t slots) slots2
  · have hr : (stop s).isRunning = false := stop_isRunning s
    simp [poll, hr]

/-- Witness for C9 in a concrete running state. -/
theorem C9_start_idempotent_witness :
    start { initialState with isRunning := true } [] =
      { initialState with isRunning := true } :=
  (C9_start_idempotent { initialState with isRunning := true } rfl [] []).1

/-! ### C1 -/

/-- Counterexample to C1 as stated: starting from the empty registry,
connecting the pad at index `0` makes it active (`some 0`); a device is
then active, yet connecting the pad at index `1` does not leave the
active device unchanged — the JS truthiness test `!this.activeGamepad`
treats the active index `0` as "no device active" and hands the active
slot to the newcomer. -/
theorem C1_connect_steals_active_from_index_zero :
    (handleGamepadConnected initialState padZero).activeGamepad = some 0 ∧
    (handleGamepadConnected (handleGamepadConnected initialState padZero)
        padOne).activeGamepad = some 1 := by
  constructor <;> rfl

/-- C1 (amended): a connect notification for `D` stores `D` in the
registry under its index; if no device is active **or the currently
active device has index `0`** (the falsy index), `D` becomes active;
if a device with a nonzero index is active, the active device is left
unchanged. -/
theorem C1_connect_amended (s : ManagerState) (gp : Gamepad) :
    mapGet (handleGamepadConnected s gp).gamepads gp.index = some gp ∧
    (s.activeGamepad = none ∨ s.activeGamepad = some 0 →
      (handleGamepadConnected s gp).activeGamepad = some gp.index) ∧
    (∀ i, s.activeGamepad = some i → i ≠ 0 →
      (handleGamepadConnected s gp).activeGamepad = s.activeGamepad) := by
  refine ⟨?_, ?_, ?_⟩
  · rw [handleGamepadConnected_gamepads]
    exact mapGet_mapSet_self _ _ _
  · intro h
    rw [handleGamepadConnected_activeGamepad]
    rcases h with h | h <;> rw [h] <;> simp [truthyActive]
  · intro i hi hne
    rw [handleGamepadConnected_activeGamepad, hi]
    simp [truthyActive, hne]

/-- Witness for the amended C1: connecting onto the empty initial state
makes the newcomer active and registered. -/
theorem C1_connect_amended_witness :
    mapGet (handleGamepadConnected initialState padOne).gamepads 1 = some padOne ∧
    (handleGamepadConnected initialState padOne).activeGamepad = some 1 :=
  ⟨(C1_connect_amended initialState padOne).1,
   (C1_connect_amended initialState padOne).2.1 (Or.inl rfl)⟩

/-! ### C5 -/

/-- The §8 scenario state: pads connected at indices `[0, 1, 2]`; the
truthiness quirk of connect makes index `1` the active one. -/
def connect3State : ManagerState :=
  handleGamepadConnected
    (handleGamepadConnected (handleGamepadConnected initialState padZero) padOne)
    padTwo

/-- The scenario state after disconnecting all three pads. -/
def disconnectAllState : ManagerState :=
  handleGamepadDisconnected
    (handleGamepadDisconnected (handleGamepadDisconnected connect3State 1) 0) 2

/-- C5: a disconnect at index `i` removes the device and its
button/axis state collections; when `i` was active, the new active
device is the head of the remaining registry iteration order (or `null`
if none remain), and otherwise the active device is untouched.  In the
§8 scenario (indices `[0,1,2]`, active `1`), disconnecting `1`
re-elects `0`, and after disconnecting all three the active device is
`null` and `isConnected()` is `false`. -/
theorem C5_disconnect_reelection (s : ManagerState) (index : Nat) :
    mapHas (handleGamepadDisconnected s index).gamepads index = false ∧
    mapHas (handleGamepadDisconnected s index).buttonStates index = false ∧
    mapHas (handleGamepadDisconnected s index).axisStates index = false ∧
    (s.activeGamepad = some index →
      (handleGamepadDisconnected s index).activeGamepad =
        (mapKeys (mapDelete s.gamepads index)).head?) ∧
    (s.activeGamepad ≠ some index →
      (handleGamepadDisconnected s index).activeGamepad = s.activeGamepad) ∧
    (connect3State.activeGamepad = some 1 ∧
      mapKeys connect3State.gamepads = [0, 1, 2] ∧
      (handleGamepadDisconnected connect3State 1).activeGamepad = some 0 ∧
      disconnectAllState.activeGamepad = none ∧
      isConnected disconnectAllState = false) := by
  refine ⟨mapHas_mapDelete_self _ _, mapHas_mapDelete_self _ _,
    mapHas_mapDelete_self _ _, ?_, ?_, rfl, rfl, rfl, rfl, rfl⟩
  · intro h
    rw [handleGamepadDisconnected_activeGamepad, if_pos h]
  · intro h
    rw [handleGamepadDisconnected_activeGamepad, if_neg h]

/-- Witness for C5: the scenario's re-election after disconnecting the
active index `1` matches the head of the remaining iteration order. -/
theorem C5_disconnect_reelection_witness :
    (handleGamepadDisconnected connect3State 1).activeGamepad =
      (mapKeys (mapDelete connect3State.gamepads 1)).head? :=
  (C5_disconnect_reelection connect3State 1).2.2.2.1 rfl

/-! ### Characterization of the change-detector loops -/

/-- Membership characterization of the axis loop's event list: walking
from running index `i0`, an event appears exactly for the positions
whose dead-zone-adjusted difference exceeds the threshold, and it
carries the loop's payload. -/
theorem mem_detectAxisEvents (gpIndex : Nat) (prev : List ℚ) (ts : ℚ) :
    ∀ (axes : List ℚ) (i0 : Nat) (e : AxisChangeEvent),
      e ∈ detectAxisEvents gpIndex prev ts i0 axes ↔
      ∃ j : Nat, ∃ hj : j < axes.length,
        |applyDeadZone axes[j] - applyDeadZone (prev.getD (i0 + j) 0)|
            > AXIS_CHANGE_THRESHOLD ∧
        e = { index := i0 + j, value := applyDeadZone axes[j],
              rawValue := axes[j],
              name := getAxisName gpIndex (i0 + j), timestamp := ts } := by
  intro axes
  induction axes with
  | nil =>
    intro i0 e
    simp [detectAxisEvents]
  | cons a rest ih =>
    intro i0 e
    simp only [detectAxisEvents, List.mem_append]
    constructor
    · rintro (hmem | hmem)
      · by_cases hc : |applyDeadZone a - applyDeadZone (prev.getD i0 0)|
            > AXIS_CHANGE_THRESHOLD
        · rw [if_pos hc, List.mem_singleton] at hmem
          refine ⟨0, Nat.succ_pos rest.length, ?_, ?_⟩
          · simpa using hc
          · simpa using hmem
        · rw [if_neg hc] at hmem
          cases hmem
      · obtain ⟨j, hj, hcond, he⟩ := (ih (i0 + 1) e).mp hmem
        have harith : i0 + (j + 1) = i0 + 1 + j := by omega
        refine ⟨j + 1, Nat.succ_lt_succ hj, ?_, ?_⟩
        · rw [harith]
          simpa using hcond
        · rw [harith]
          simpa using he
    · rintro ⟨j, hj, hcond, he⟩
      cases j with
      | zero =>
        left
        have hc : |applyDeadZone a - applyDeadZone (prev.getD i0 0)|
            > AXIS_CHANGE_THRESHOLD := by simpa using hcond
        rw [if_pos hc, List.mem_singleton]
        simpa using he
      | succ j =>
        right
        have harith : i0 + (j + 1) = i0 + 1 + j := by omega
        rw [harith] at hcond he
        refine (ih (i0 + 1) e).mpr ⟨j, Nat.lt_of_succ_lt_succ hj, ?_, ?_⟩
        · simpa using hcond
        · simpa using he

/-- An axis-change event with index `i` appears in the axis loop's
output iff the adjusted difference at position `i` exceeds `0.02`. -/
theorem exists_axisEvent_index_iff (gpIndex : Nat) (prev : List ℚ) (ts : ℚ)
    (axes : List ℚ) (i : Nat) (h : i < axes.length) :
    (∃ e ∈ detectAxisEvents gpIndex prev ts 0 axes, e.index = i) ↔
      |applyDeadZone axes[i] - applyDeadZone (prev.getD i 0)|
        > AXIS_CHANGE_THRESHOLD := by
  constructor
  · rintro ⟨e, he, hei⟩
    obtain ⟨j, hj, hcond, heq⟩ := (mem_detectAxisEvents gpIndex prev ts axes 0 e).mp he
    subst heq
    have hji : j = i := by simpa using hei
    subst hji
    simpa using hcond
  · intro hc
    refine ⟨{ index := 0 + i, value := applyDeadZone axes[i],
              rawValue := axes[i], name := getAxisName gpIndex (0 + i),
              timestamp := ts }, ?_, by simp⟩
    exact (mem_detectAxisEvents gpIndex prev ts axes 0 _).mpr
      ⟨i, h, by simpa using hc, rfl⟩

/-! ### C3 -/

/-- C3: an axis-change event for axis `i` is emitted iff the absolute
difference of the dead-zone-adjusted current and previous values
exceeds `0.02`; the payload carries the axis index, the adjusted value,
the raw value, the human-readable name and the device timestamp; and
adjusted values `0.20` then `0.21` emit nothing while `0.20` then
`0.23` emit exactly the one event. -/
theorem C3_axis_event_threshold (gpIndex : Nat) (prev : List ℚ) (ts : ℚ)
    (axes : List ℚ) (i : Nat) (h : i < axes.length) :
    ((∃ e ∈ detectAxisEvents gpIndex prev ts 0 axes, e.index = i) ↔
      |applyDeadZone axes[i] - applyDeadZone (prev.getD i 0)|
        > AXIS_CHANGE_THRESHOLD) ∧
    (∀ e ∈ detectAxisEvents gpIndex prev ts 0 axes, e.index = i →
      e = { index := i, value := applyDeadZone axes[i],
            rawValue := axes[i], name := getAxisName gpIndex i,
            timestamp := ts }) ∧
    AXIS_CHANGE_THRESHOLD = 2 / 100 ∧
    detectAxisEvents gpIndex [20 / 100] ts 0 [21 / 100] = [] ∧
    detectAxisEvents gpIndex [20 / 100] ts 0 [23 / 100] =
      [{ index := 0, value := 23 / 100, rawValue := 23 / 100,
         name := getAxisName gpIndex 0, timestamp := ts }] := by
  refine ⟨exists_axisEvent_index_iff gpIndex prev ts axes i h, ?_, rfl, ?_, ?_⟩
  · intro e he hei
    obtain ⟨j, hj, hcond, heq⟩ := (mem_detectAxisEvents gpIndex prev ts axes 0 e).mp he
    subst heq
    have hji : j = i := by simpa using hei
    subst hji
    simp
  · norm_num [detectAxisEvents, applyDeadZone, STICK_DEAD_ZONE,
      AXIS_CHANGE_THRESHOLD, abs_of_nonneg, List.getD]
  · norm_num [detectAxisEvents, applyDeadZone, STICK_DEAD_ZONE,
      AXIS_CHANGE_THRESHOLD, abs_of_nonneg, List.getD]

/-- Witness for C3: the `0.20 → 0.23` step emits an event for axis `0`. -/
theorem C3_axis_event_threshold_witness :
    ∃ e ∈ detectAxisEvents 0 [20 / 100] 7 0 [23 / 100], e.index = 0 :=
  ((C3_axis_event_threshold 0 [20 / 100] 7 [23 / 100] 0 (by simp)).1).mpr
    (by norm_num [applyDeadZone, STICK_DEAD_ZONE, AXIS_CHANGE_THRESHOLD,
      abs_of_nonneg, List.getD])

/-- Membership characterization of the button loop's press events:
walking from running index `i0`, a press event appears exactly for the
positions with current `pressed` and previous not pressed. -/
theorem mem_detectPressEvents (gpIndex : Nat) (prev : List ButtonState) (ts : ℚ) :
    ∀ (buttons : List Button) (i0 : Nat) (e : ButtonPressEvent),
      e ∈ detectPressEvents gpIndex prev ts i0 buttons ↔
      ∃ j : Nat, ∃ hj : j < buttons.length,
        buttons[j].pressed = true ∧
        (prev.getD (i0 + j) { pressed := false, value := 0 }).pressed = false ∧
        e = { index := i0 + j, button := getButtonName gpIndex (i0 + j),
              value := buttons[j].value, timestamp := ts } := by
  intro buttons
  induction buttons with
  | nil =>
    intro i0 e
    simp [detectPressEvents]
  | cons b rest ih =>
    intro i0 e
    simp only [detectPressEvents, List.mem_append]
    constructor
    · rintro (hmem | hmem)
      · by_cases hc : (b.pressed &&
            !(prev.getD i0 { pressed := false, value := 0 }).pressed) = true
        · rw [if_pos hc, List.mem_singleton] at hmem
          rw [Bool.and_eq_true, Bool.not_eq_true'] at hc
          refine ⟨0, Nat.succ_pos rest.length, ?_, ?_, ?_⟩
          · simpa using hc.1
          · simpa using hc.2
          · simpa using hmem
        · rw [if_neg hc] at hmem
          cases hmem
      · obtain ⟨j, hj, h1, h2, he⟩ := (ih (i0 + 1) e).mp hmem
        have harith : i0 + (j + 1) = i0 + 1 + j := by omega
        refine ⟨j + 1, Nat.succ_lt_succ hj, ?_, ?_, ?_⟩
        · simpa using h1
        · rw [harith]
          exact h2
        · rw [harith]
          simpa using he
    · rintro ⟨j, hj, h1, h2, he⟩
      cases j with
      | zero =>
        left
        have hc : (b.pressed &&
            !(prev.getD i0 { pressed := false, value := 0 }).pressed) = true := by
          rw [Bool.and_eq_true, Bool.not_eq_true']
          exact ⟨by simpa using h1, by simpa using h2⟩
        rw [if_pos hc, List.mem_singleton]
        simpa using he
      | succ j =>
        right
        have harith : i0 + (j + 1) = i0 + 1 + j := by omega
        rw [harith] at h2 he
        refine (ih (i0 + 1) e).mpr ⟨j, Nat.lt_of_succ_lt_succ hj, ?_, h2, ?_⟩
        · simpa using h1
        · simpa using he

/-- Membership characterization of the button loop's release events:
a release event appears exactly for the positions with current not
pressed and previous pressed. -/
theorem mem_detectReleaseEvents (gpIndex : Nat) (prev : List ButtonState) (ts : ℚ) :
    ∀ (buttons : List Button) (i0 : Nat) (e : ButtonReleaseEvent),
      e ∈ detectReleaseEvents gpIndex prev ts i0 buttons ↔
      ∃ j : Nat, ∃ hj : j < buttons.length,
        buttons[j].pressed = false ∧
        (prev.getD (i0 + j) { pressed := false, value := 0 }).pressed = true ∧
        e = { index := i0 + j, button := getButtonName gpIndex (i0 + j),
              timestamp := ts } := by
  intro buttons
  induction buttons with
  | nil =>
    intro i0 e
    simp [detectReleaseEvents]
  | cons b rest ih =>
    intro i0 e
    simp only [detectReleaseEvents, List.mem_append]
    constructor
    · rintro (hmem | hmem)
      · by_cases hc : (!b.pressed &&
            (prev.getD i0 { pressed := false, value := 0 }).pressed) = true
        · rw [if_pos hc, List.mem_singleton] at hmem
          rw [Bool.and_eq_true, Bool.not_eq_true'] at hc
          refine ⟨0, Nat.succ_pos rest.length, ?_, ?_, ?_⟩
          · simpa using hc.1
          · simpa using hc.2
          · simpa using hmem
        · rw [if_neg hc] at hmem
          cases hmem
      · obtain ⟨j, hj, h1, h2, he⟩ := (ih (i0 + 1) e).mp hmem
        have harith : i0 + (j + 1) = i0 + 1 + j := by omega
        refine ⟨j + 1, Nat.succ_lt_succ hj, ?_, ?_, ?_⟩
        · simpa using h1
        · rw [harith]
          exact h2
        · rw [harith]
          simpa using he
    · rintro ⟨j, hj, h1, h2, he⟩
      cases j with
      | zero =>
        left
        have hc : (!b.pressed &&
            (prev.getD i0 { pressed := false, value := 0 }).pressed) = true := by
          rw [Bool.and_eq_true, Bool.not_eq_true']
          exact ⟨by simpa using h1, by simpa using h2⟩
        rw [if_pos hc, List.mem_singleton]
        simpa using he
      | succ j =>
        right
        have harith : i0 + (j + 1) = i0 + 1 + j := by omega
        rw [harith] at h2 he
        refine (ih (i0 + 1) e).mpr ⟨j, Nat.lt_of_succ_lt_succ hj, ?_, h2, ?_⟩
        · simpa using h1
        · simpa using he

/-- A press event with index `i` appears in the button loop's output
iff the stored pressed flag was `false` and the current one is `true`. -/
theorem exists_pressEvent_index_iff (gpIndex : Nat) (prev : List ButtonState) (ts : ℚ)
    (buttons : List Button) (i : Nat) (h : i < buttons.length) :
    (∃ e ∈ detectPressEvents gpIndex prev ts 0 buttons, e.index = i) ↔
      ((prev.getD i { pressed := false, value := 0 }).pressed = false ∧
        buttons[i].pressed = true) := by
  constructor
  · rintro ⟨e, he, hei⟩
    obtain ⟨j, hj, h1, h2, heq⟩ :=
      (mem_detectPressEvents gpIndex prev ts buttons 0 e).mp he
    subst heq
    have hji : j = i := by simpa using hei
    subst hji
    exact ⟨by simpa using h2, h1⟩
  · rintro ⟨h2, h1⟩
    refine ⟨{ index := 0 + i, button := getButtonName gpIndex (0 + i),
              value := buttons[i].value, timestamp := ts }, ?_, by simp⟩
    exact (mem_detectPressEvents gpIndex prev ts buttons 0 _).mpr
      ⟨i, h, h1, by simpa using h2, rfl⟩

/-- A release event with index `i` appears in the button loop's output
iff the stored pressed flag was `true` and the current one is `false`. -/
theorem exists_releaseEvent_index_iff (gpIndex : Nat) (prev : List ButtonState) (ts : ℚ)
    (buttons : List Button) (i : Nat) (h : i < buttons.length) :
    (∃ e ∈ detectReleaseEvents gpIndex prev ts 0 buttons, e.index = i) ↔
      ((prev.getD i { pressed := false, value := 0 }).pressed = true ∧
        buttons[i].pressed = false) := by
  constructor
  · rintro ⟨e, he, hei⟩
    obtain ⟨j, hj, h1, h2, heq⟩ :=
      (mem_detectReleaseEvents gpIndex prev ts buttons 0 e).mp he
    subst heq
    have hji : j = i := by simpa using hei
    subst hji
    exact ⟨by simpa using h2, h1⟩
  · rintro ⟨h2, h1⟩
    refine ⟨{ index := 0 + i, button := getButtonName gpIndex (0 + i),
              timestamp := ts }, ?_, by simp⟩
    exact (mem_detectReleaseEvents gpIndex prev ts buttons 0 _).mpr
      ⟨i, h, h1, by simpa using h2, rfl⟩

/-- The button loop's write-back stores exactly the current frame's
`{pressed, value}` at every live index. -/
theorem getElem?_updateButtonStates (prev : List ButtonState) (buttons : List Button)
    (j : Nat) (hj : j < buttons.length) :
    (updateButtonStates prev buttons)[j]? =
      some { pressed := buttons[j].pressed, value := buttons[j].value } := by
  unfold updateButtonStates
  rw [List.getElem?_append_left (by simpa using hj), List.getElem?_map,
    List.getElem?_eq_getElem hj]
  rfl

/-- Repeated sampling passes of `processGamepadInput` on one device
slot, collecting each pass's emitted events. -/
def runFrames (s : ManagerState) (index : Nat) :
    List Gamepad → ManagerState × List PollEvents
  | [] => (s, [])
  | gp :: rest =>
    let r := processGamepadInput s index gp
    let r2 := runFrames r.1 index rest
    (r2.1, r.2 :: r2.2)

/-- A one-button frame with the given pressed flag. -/
def pressFrame (b : Bool) (ts : ℚ) : Gamepad :=
  { index := 0, id := "Example Pad 0"
    buttons := [{ pressed := b, value := if b then 1 else 0 }]
    axes := [], timestamp := ts, connected := true, vibrationActuator := none }

/-- The §8 button sequence `[false, false, true, true, false]`. -/
def pressSequenceFrames : List Gamepad :=
  [pressFrame false 1, pressFrame false 2, pressFrame true 3,
   pressFrame true 4, pressFrame false 5]

/-- The state the button sequence starts from: the one-button pad
freshly connected, its ButtonState reset to `{pressed:false, value:0}`. -/
def pressSeqStart : ManagerState :=
  handleGamepadConnected initialState (pressFrame false 0)

/-! ### C4 -/

/-- C4: a press event for button `i` is emitted iff the stored pressed
boolean was `false` and the current one is `true`; a release event iff
the stored one was `true` and the current one is `false` (so nothing is
emitted when the boolean is unchanged, whatever the analog value did);
after the comparison the stored entry is unconditionally the current
`{pressed, value}`; and the pressed sequence
`[false, false, true, true, false]` yields exactly one press event and
exactly one release event. -/
theorem C4_button_edge_events (gpIndex : Nat) (prev : List ButtonState) (ts : ℚ)
    (buttons : List Button) (i : Nat) (h : i < buttons.length)
    (s : ManagerState) (index : Nat) (gp : Gamepad) :
    ((∃ e ∈ detectPressEvents gpIndex prev ts 0 buttons, e.index = i) ↔
      ((prev.getD i { pressed := false, value := 0 }).pressed = false ∧
        buttons[i].pressed = true)) ∧
    ((∃ e ∈ detectReleaseEvents gpIndex prev ts 0 buttons, e.index = i) ↔
      ((prev.getD i { pressed := false, value := 0 }).pressed = true ∧
        buttons[i].pressed = false)) ∧
    (∀ j, ∀ hj : j < gp.buttons.length,
      ∃ l, mapGet (processGamepadInput s index gp).1.buttonStates index = some l ∧
        l[j]? = some { pressed := gp.buttons[j].pressed,
                       value := gp.buttons[j].value }) ∧
    ((runFrames pressSeqStart 0 pressSequenceFrames).2.map
        (fun ev => ev.presses.length)).sum = 1 ∧
    ((runFrames pressSeqStart 0 pressSequenceFrames).2.map
        (fun ev => ev.releases.length)).sum = 1 := by
  refine ⟨exists_pressEvent_index_iff gpIndex prev ts buttons i h,
    exists_releaseEvent_index_iff gpIndex prev ts buttons i h, ?_, ?_, ?_⟩
  · intro j hj
    exact ⟨updateButtonStates ((mapGet s.buttonStates index).getD []) gp.buttons,
      mapGet_mapSet_self _ _ _, getElem?_updateButtonStates _ _ j hj⟩
  · rfl
  · rfl

/-- Witness for C4: a `false → true` edge on button `0` emits a press
event. -/
theorem C4_button_edge_events_witness :
    ∃ e ∈ detectPressEvents 0 [{ pressed := false, value := 0 }] 9 0
        [{ pressed := true, value := 1 }], e.index = 0 :=
  ((C4_button_edge_events 0 [{ pressed := false, value := 0 }] 9
      [{ pressed := true, value := 1 }] 0 (by simp) initialState 0 padZero).1).mpr
    ⟨rfl, rfl⟩

/-- The axis loop's write-back keeps exactly the raw frame value at
every live index. -/
theorem getElem?_updateAxisStates (prev axes : List ℚ) (j : Nat)
    (hj : j < axes.length) :
    (updateAxisStates prev axes)[j]? = some axes[j] := by
  unfold updateAxisStates
  rw [List.getElem?_append_left hj, List.getElem?_eq_getElem hj]

/-- Variant of `getElem?_updateAxisStates` through `getD`, the access
the next pass's comparison performs. -/
theorem getD_updateAxisStates (prev axes : List ℚ) (j : Nat)
    (hj : j < axes.length) :
    (updateAxisStates prev axes).getD j 0 = axes[j] := by
  rw [List.getD_eq_getD_get?, List.get?_eq_getElem?,
    getElem?_updateAxisStates prev axes j hj]
  rfl

/-- A frame whose single axis reports raw `0.10` — inside the dead
zone, so its adjusted value differs from its raw value. -/
def axisFrameTenth : Gamepad :=
  { index := 0, id := "Example Pad 0", buttons := [], axes := [1 / 10]
    timestamp := 6, connected := true, vibrationActuator := none }

/-! ### C7 -/

/-- C7: after a sampling pass the stored previous value of every live
axis index is the raw frame value — never the dead-zone-adjusted one
(in particular a raw `0.10`, whose adjustment is `0`, is stored as
`0.10`) — and the next pass's comparison recomputes the dead-zone
adjustment freshly from those stored raw values. -/
theorem C7_raw_axis_state (s : ManagerState) (index : Nat) (gp gp2 : Gamepad) :
    (∀ j, ∀ hj : j < gp.axes.length,
      ∃ l, mapGet (processGamepadInput s index gp).1.axisStates index = some l ∧
        l[j]? = some gp.axes[j]) ∧
    (mapGet (processGamepadInput initialState 0 axisFrameTenth).1.axisStates 0 =
        some [1 / 10] ∧
      applyDeadZone (1 / 10) ≠ 1 / 10) ∧
    (∀ j, ∀ hj1 : j < gp.axes.length, ∀ hj2 : j < gp2.axes.length,
      ((∃ e ∈ (processGamepadInput (processGamepadInput s index gp).1
            index gp2).2.axisChanges, e.index = j) ↔
        |applyDeadZone gp2.axes[j] - applyDeadZone gp.axes[j]|
          > AXIS_CHANGE_THRESHOLD)) := by
  refine ⟨?_, ⟨?_, ?_⟩, ?_⟩
  · intro j hj
    exact ⟨updateAxisStates ((mapGet s.axisStates index).getD []) gp.axes,
      mapGet_mapSet_self _ _ _, getElem?_updateAxisStates _ _ j hj⟩
  · rfl
  · norm_num [applyDeadZone, STICK_DEAD_ZONE, abs_of_nonneg]
  · intro j hj1 hj2
    have hprev : (mapGet (processGamepadInput s index gp).1.axisStates index).getD []
        = updateAxisStates ((mapGet s.axisStates index).getD []) gp.axes := by
      rw [show (processGamepadInput s index gp).1.axisStates
          = mapSet s.axisStates index
              (updateAxisStates ((mapGet s.axisStates index).getD []) gp.axes) from rfl,
        mapGet_mapSet_self]
      rfl
    have hev : (processGamepadInput (processGamepadInput s index gp).1
          index gp2).2.axisChanges
        = detectAxisEvents index
            ((mapGet (processGamepadInput s index gp).1.axisStates index).getD [])
            gp2.timestamp 0 gp2.axes := rfl
    rw [hev, hprev,
      exists_axisEvent_index_iff index _ gp2.timestamp gp2.axes j hj2,
      getD_updateAxisStates _ _ j hj1]

/-- Witness for C7: the sub-dead-zone raw `0.10` is stored raw. -/
theorem C7_raw_axis_state_witness :
    ∃ l, mapGet (processGamepadInput initialState 0 axisFrameTenth).1.axisStates 0
        = some l ∧ l[0]? = some ((1 : ℚ) / 10) :=
  (C7_raw_axis_state initialState 0 axisFrameTenth axisFrameTenth).1 0 (by decide)

/-! ### C6 -/

/-- Decision of the §3 invariant on a state: if the active-device field
is set, its index is a key of the device registry. -/
def activeInvHolds (s : ManagerState) : Bool :=
  match s.activeGamepad with
  | none => true
  | some i => mapHas s.gamepads i

theorem activeInvHolds_iff {s : ManagerState} :
    activeInvHolds s = true ↔
      ∀ i, s.activeGamepad = some i → mapHas s.gamepads i = true := by
  unfold activeInvHolds
  cases h : s.activeGamepad with
  | none => simp
  | some i => simp

theorem activeInvHolds_connect {s : ManagerState} (gp : Gamepad)
    (h : activeInvHolds s = true) :
    activeInvHolds (handleGamepadConnected s gp) = true := by
  rw [activeInvHolds_iff] at h ⊢
  intro i hi
  rw [handleGamepadConnected_gamepads]
  rw [handleGamepadConnected_activeGamepad] at hi
  by_cases ht : truthyActive s.activeGamepad = true
  · rw [if_pos ht] at hi
    exact mapHas_mapSet_of _ _ (h i hi)
  · rw [if_neg ht] at hi
    cases hi
    exact mapHas_mapSet_self _ _ _

theorem activeInvHolds_disconnect {s : ManagerState} (index : Nat)
    (h : activeInvHolds s = true) :
    activeInvHolds (handleGamepadDisconnected s index) = true := by
  rw [activeInvHolds_iff] at h ⊢
  intro i hi
  have hg : (handleGamepadDisconnected s index).gamepads
      = mapDelete s.gamepads index := rfl
  rw [hg]
  rw [handleGamepadDisconnected_activeGamepad] at hi
  by_cases hact : s.activeGamepad = some index
  · rw [if_pos hact] at hi
    cases hk : mapKeys (mapDelete s.gamepads index) with
    | nil => rw [hk] at hi; cases hi
    | cons k rest =>
      rw [hk] at hi
      simp only [List.head?_cons] at hi
      cases hi
      exact mapHas_of_mapKeys_head hk
  · rw [if_neg hact] at hi
    have hne : i ≠ index := by
      intro e
      exact hact (by rw [hi, e])
    exact mapHas_mapDelete_of (h i hi) hne

theorem activeInvHolds_processGamepadInput (s : ManagerState) (index : Nat)
    (gp : Gamepad) (h : activeInvHolds s = true) :
    activeInvHolds (processGamepadInput s index gp).1 = true := by
  rw [activeInvHolds_iff] at h ⊢
  intro i hi
  rw [processGamepadInput_gamepads]
  rw [processGamepadInput_activeGamepad] at hi
  exact h i hi

theorem activeInvHolds_pollSlotStep (s : ManagerState) (evs : List PollEvents)
    (i : Nat) (slot : Option Gamepad) (h : activeInvHolds s = true) :
    activeInvHolds (pollSlotStep (s, evs) i slot).1 = true := by
  cases slot with
  | none => exact h
  | some gp =>
    have hstep : (pollSlotStep (s, evs) i (some gp)).1
        = (processGamepadInput (if mapHas s.gamepads i then s
            else handleGamepadConnected s gp) i gp).1 := rfl
    rw [hstep]
    by_cases hh : mapHas s.gamepads i = true
    · rw [if_pos hh]
      exact activeInvHolds_processGamepadInput _ _ _ h
    · rw [if_neg hh]
      exact activeInvHolds_processGamepadInput _ _ _ (activeInvHolds_connect _ h)

theorem activeInvHolds_pollSlots (slots : List (Option Gamepad)) :
    ∀ (s : ManagerState) (i0 : Nat), activeInvHolds s = true →
      activeInvHolds (pollSlots s i0 slots).1 = true := by
  induction slots with
  | nil => intro s i0 h; exact h
  | cons slot rest ih =>
    intro s i0 h
    have hstep : (pollSlots s i0 (slot :: rest)).1
        = (pollSlots (pollSlotStep (s, []) i0 slot).1 (i0 + 1) rest).1 := rfl
    rw [hstep]
    exact ih _ _ (activeInvHolds_pollSlotStep s [] i0 slot h)

theorem activeInvHolds_poll (s : ManagerState) (slots : List (Option Gamepad))
    (h : activeInvHolds s = true) : activeInvHolds (poll s slots).1 = true := by
  unfold poll
  by_cases hr : s.isRunning = true
  · rw [if_pos hr]
    have h2 := activeInvHolds_pollSlots slots s 0 h
    rw [activeInvHolds_iff] at h2 ⊢
    intro i hi
    exact h2 i hi
  · rw [if_neg hr]
    exact h

theorem activeInvHolds_start (s : ManagerState) (slots : List (Option Gamepad))
    (h : activeInvHolds s = true) : activeInvHolds (start s slots) = true := by
  unfold start
  by_cases hr : s.isRunning = true
  · rw [if_pos hr]
    exact h
  · rw [if_neg hr]
    apply activeInvHolds_poll
    rw [activeInvHolds_iff] at h ⊢
    intro i hi
    exact h i hi

theorem activeInvHolds_stop (s : ManagerState) (h : activeInvHolds s = true) :
    activeInvHolds (stop s) = true := by
  rw [activeInvHolds_iff] at h ⊢
  intro i hi
  have hg : (stop s).gamepads = s.gamepads := by
    unfold stop
    cases s.rafId with
    | none => rfl
    | some n => by_cases hn : n ≠ 0 <;> simp [hn]
  have ha : (stop s).activeGamepad = s.activeGamepad := by
    unfold stop
    cases s.rafId with
    | none => rfl
    | some n => by_cases hn : n ≠ 0 <;> simp [hn]
  rw [hg]
  rw [ha] at hi
  exact h i hi

/-- An operation on the manager state: an explicit connect or
disconnect notification, a sampling pass over the host's slots (with
its synthesized mid-poll connects), or loop control. -/
inductive Op where
  | connect (gp : Gamepad)
  | disconnect (index : Nat)
  | pollPass (slots : List (Option Gamepad))
  | startLoop (slots : List (Option Gamepad))
  | stopLoop
  deriving Repr

/-- Interpretation of one operation on the manager state. -/
def applyOp (s : ManagerState) : Op → ManagerState
  | Op.connect gp => handleGamepadConnected s gp
  | Op.disconnect index => handleGamepadDisconnected s index
  | Op.pollPass slots => (poll s slots).1
  | Op.startLoop slots => start s slots
  | Op.stopLoop => stop s

theorem activeInvHolds_applyOp (s : ManagerState) (op : Op)
    (h : activeInvHolds s = true) : activeInvHolds (applyOp s op) = true := by
  cases op with
  | connect gp => exact activeInvHolds_connect gp h
  | disconnect index => exact activeInvHolds_disconnect index h
  | pollPass slots => exact activeInvHolds_poll s slots h
  | startLoop slots => exact activeInvHolds_start s slots h
  | stopLoop => exact activeInvHolds_stop s h

/-- C6: every sequence of operations — connects, disconnects, sampling
passes (with their synthesized mid-poll connects), loop starts and
stops — preserves the invariant that a set active-device index is
present as a key in the device registry; and at most one device is
flagged active at a time (the active field holds at most one index). -/
theorem C6_active_device_invariant (s : ManagerState) (ops : List Op)
    (h : activeInvHolds s = true) :
    activeInvHolds (ops.foldl applyOp s) = true ∧
    (∀ i j, (ops.foldl applyOp s).activeGamepad = some i →
      (ops.foldl applyOp s).activeGamepad = some j → i = j) := by
  constructor
  · induction ops generalizing s with
    | nil => exact h
    | cons op rest ih =>
      rw [List.foldl_cons]
      exact ih _ (activeInvHolds_applyOp s op h)
  · intro i j hi hj
    rw [hi] at hj
    exact Option.some.inj hj

/-- Witness for C6: a concrete mixed operation sequence from the
initial state keeps the invariant. -/
theorem C6_active_device_invariant_witness :
    activeInvHolds ([Op.connect padZero, Op.connect padOne,
      Op.startLoop [some padZero, none], Op.pollPass [some padTwo],
      Op.disconnect 1, Op.stopLoop].foldl applyOp initialState) = true :=
  (C6_active_device_invariant initialState [Op.connect padZero, Op.connect padOne,
      Op.startLoop [some padZero, none], Op.pollPass [some padTwo],
      Op.disconnect 1, Op.stopLoop] rfl).1

end GamepadManager
